import Mathlib

/-!
# MatchPage: a verification development

Shallow embedding of `src/pages/MatchPage.jsx`, the match page of a
rock-paper-scissors client: the event handler `handleEvent`, the move
submitter `playTurn`, the loader `fetchMatchDetails` and the event-stream
set-up `setupEventSource` together with the `useEffect` that drives it.

The component is dynamically typed, so the embedding works over JSON-shaped
JavaScript values and makes the `TypeError` of a failed property read or
method call explicit (`Except JSError`).  React state is an explicit record;
the closures that a render captures are explicit values.
-/

namespace MatchPage

/-! ## JavaScript values -/

/-- Values as produced by `JSON.parse`, plus `undefined`.  Numbers are
restricted to integers; strings are sequences of characters; an object is its
list of own properties (looked up first-match). -/
inductive JSVal where
  | undefined
  | null
  | bool (b : Bool)
  | num (n : Int)
  | str (s : String)
  | arr (items : List JSVal)
  | obj (fields : List (String × JSVal))

/-- The one kind of exception the component can raise by itself. -/
inductive JSError where
  | typeError
  deriving DecidableEq, Repr

/-- Truthiness (`ToBoolean`): `undefined`, `null`, `false`, `0` and the empty
string are falsy, everything else (every array and object included) is truthy. -/
def truthy : JSVal → Bool
  | .undefined => false
  | .null => false
  | .bool b => b
  | .num n => n != 0
  | .str s => s != ""
  | .arr _ => true
  | .obj _ => true

/-- Nullish values: reading a property of one of them raises a `TypeError`. -/
def JSVal.nullish : JSVal → Bool
  | .undefined => true
  | .null => true
  | _ => false

/-- Strict equality `===` between two values held at different places of
parsed JSON data (or one of them a literal): primitives compare by value,
arrays and objects by reference, hence never equal. -/
def strictEq : JSVal → JSVal → Bool
  | .undefined, .undefined => true
  | .null, .null => true
  | .bool a, .bool b => a == b
  | .num a, .num b => a == b
  | .str a, .str b => a == b
  | _, _ => false

/-- Own property `name` of an object, `undefined` when it has none. -/
def field (fields : List (String × JSVal)) (name : String) : JSVal :=
  (fields.lookup name).getD .undefined

/-- Property read `v.name` for the property names the component reads
(`type`, `payload`, `user`, `turnId`, `winner`, `turn`, `currentTurnId`,
`turns`, `_id`, `moves`, `playerId`, `match`, `player1Wins`, `player2Wins`,
`message`): a `TypeError` on `undefined` and `null`, the own property of an
object (or `undefined`), and `undefined` on every other value. -/
def getProp (v : JSVal) (name : String) : Except JSError JSVal :=
  match v with
  | .undefined => .error .typeError
  | .null => .error .typeError
  | .obj fields => .ok (field fields name)
  | _ => .ok .undefined

mutual
/-- String conversion of an interpolated value in a template literal
(`ToString`).  An object converts through `Object.prototype.toString`, unless
an own property named `toString` hides it: that property is never callable in
parsed JSON, so the conversion raises.  An array converts through `join`.
An integer renders in decimal, which is the JavaScript text for magnitudes
below `10^21`; above, JavaScript prints the exponent form. -/
def toStr : JSVal → Except JSError String
  | .undefined => .ok "undefined"
  | .null => .ok "null"
  | .bool b => .ok (if b then "true" else "false")
  | .num n => .ok (toString n)
  | .str s => .ok s
  | .arr items => joinItems items
  | .obj fields =>
      match fields.lookup "toString" with
      | some _ => .error .typeError
      | none => .ok "[object Object]"
/-- The function `Array.prototype.join` with the separator `,`: nullish
elements render as the empty string. -/
def joinItems : List JSVal → Except JSError String
  | [] => .ok ""
  | v :: rest =>
      match toStr v, joinItems rest with
      | .error e, _ => .error e
      | .ok _, .error e => .error e
      | .ok s, .ok t =>
          .ok ((if v.nullish then "" else s) ++ (if rest.isEmpty then "" else "," ++ t))
end

/-- Own enumerable properties copied by object spread `{...v}`: the fields of
an object, the indexed elements of an array, the indexed characters of a
string (JavaScript indexes UTF-16 code units, which differs for characters
outside the basic plane), nothing for the other values. -/
def spread : JSVal → List (String × JSVal)
  | .obj fields => fields
  | .arr items => items.enum.map (fun p => (toString p.1, p.2))
  | .str s => s.toList.enum.map (fun p => (toString p.1, JSVal.str p.2.toString))
  | _ => []

/-- Define property `k` in an object literal after a spread: an existing
property keeps its place and takes the new value, a new one is appended. -/
def setField (fields : List (String × JSVal)) (k : String) (v : JSVal) :
    List (String × JSVal) :=
  if fields.any (fun kv => kv.1 == k) then
    fields.map (fun kv => if kv.1 == k then (k, v) else kv)
  else fields ++ [(k, v)]

/-- The expression `a || b`. -/
def jsOr (a b : JSVal) : JSVal := if truthy a then a else b

/-! ## Component state and environment -/

/-- What the component reads from its surroundings: `VITE_API_URL` and the
two `localStorage` entries (`none` when `getItem` returns `null`). -/
structure Env where
  apiUrl : String
  token : Option String
  userId : Option String

/-- A network request issued with `fetch`: its URL, its `Authorization`
header and, for a submission, the two values of the body `{ move, turn }`
before serialisation. -/
inductive Request where
  | loadMatch (url : String) (authorization : String)
  | playTurn (url : String) (authorization : String) (move : JSVal) (turn : JSVal)

/-- The `useState` cells of the page that the handlers read and write, and
the log of the requests issued so far. -/
structure Page where
  loading : Bool
  matchDetails : JSVal
  gameStatus : String
  error : JSVal
  player1Wins : JSVal
  player2Wins : JSVal
  requests : List Request

/-- Initial values of the state cells. -/
def Page.initial : Page :=
  { loading := true, matchDetails := .null,
    gameStatus := "Waiting for match updates...", error := .str "",
    player1Wins := .num 0, player2Wins := .num 0, requests := [] }

/-- The header value built by the template with `localStorage.getItem('token')`. -/
def bearer (env : Env) : String :=
  "Bearer " ++ (match env.token with | some t => t | none => "null")

/-- Is the request a load of the match snapshot? -/
def Request.isLoad : Request → Bool
  | .loadMatch _ _ => true
  | .playTurn _ _ _ _ => false

/-! ## fetchMatchDetails -/

/-- The load request of `fetchMatchDetails` for match `id`. -/
def loadRequest (env : Env) (id : String) : Request :=
  .loadMatch (env.apiUrl ++ "/matches/" ++ id) (bearer env)

/-- The synchronous part of `fetchMatchDetails`, up to its first `await`:
`setLoading(true)` and the `GET` request. -/
def fetchMatchDetails (env : Env) (id : String) (st : Page) : Page :=
  { st with loading := true, requests := st.requests ++ [loadRequest env id] }

/-- Outcome of the load request: the transport failed, or a response arrived
with its `ok` flag and its body (`none` when the body is not JSON). -/
inductive LoadResult where
  | failed
  | response (ok : Bool) (body : Option JSVal)

/-- The rest of `fetchMatchDetails`, once the request has completed. -/
def fetchMatchDetailsDone (res : LoadResult) (st : Page) : Page :=
  let netError := JSVal.str "Network error or server is down."
  match res with
  | .failed => { st with error := netError, loading := false }
  | .response _ none => { st with error := netError, loading := false }
  | .response true (some data) =>
      match getProp data "player1Wins", getProp data "player2Wins" with
      | .ok w1, .ok w2 =>
          { st with matchDetails := data, player1Wins := jsOr w1 (.num 0),
                    player2Wins := jsOr w2 (.num 0), error := .str "", loading := false }
      | _, _ => { st with matchDetails := data, error := netError, loading := false }
  | .response false (some errorData) =>
      match getProp errorData "message" with
      | .ok m => { st with error := jsOr m (.str "Failed to load match details."),
                           loading := false }
      | .error _ => { st with error := netError, loading := false }

/-! ## handleEvent -/

/-- The body of `handleEvent`: a `switch` on `data.type` with strict
comparison.  Each recognised case first builds its status text, reading
`data.payload`; a raised `TypeError` leaves the handler before any setter ran. -/
def handleEvent (env : Env) (id : String) (data : JSVal) (st : Page) : Except JSError Page := do
  let kind ← getProp data "type"
  if strictEq kind (.str "PLAYER1_JOIN") || strictEq kind (.str "PLAYER2_JOIN") then
    let payload ← getProp data "payload"
    let user ← getProp payload "user"
    let s ← toStr user
    pure { st with gameStatus := s ++ " has joined the match" }
  else if strictEq kind (.str "NEW_TURN") then
    let payload ← getProp data "payload"
    let turnId ← getProp payload "turnId"
    let s ← toStr turnId
    pure { st with
      gameStatus := "Turn " ++ s ++ " has started",
      matchDetails := .obj (setField (spread st.matchDetails) "currentTurnId" turnId) }
  else if strictEq kind (.str "TURN_ENDED") then
    let payload ← getProp data "payload"
    let winner ← getProp payload "winner"
    let s ← toStr winner
    pure (fetchMatchDetails env id { st with gameStatus := "Turn ended. Winner: " ++ s })
  else if strictEq kind (.str "PLAYER1_MOVED") || strictEq kind (.str "PLAYER2_MOVED") then
    let payload ← getProp data "payload"
    let turn ← getProp payload "turn"
    let s ← toStr turn
    pure { st with gameStatus := "Player moved in turn " ++ s }
  else if strictEq kind (.str "MATCH_ENDED") then
    let payload ← getProp data "payload"
    let winner ← getProp payload "winner"
    let s ← toStr winner
    pure (fetchMatchDetails env id { st with gameStatus := "Match ended. Winner: " ++ s })
  else
    pure { st with gameStatus := "Update received from game." }

/-- The `onmessage` callback for an already decoded message: `handleEvent`,
whose exception, if any, ends the callback with the state as it was. -/
def onmessage (env : Env) (id : String) (st : Page) (data : JSVal) : Page :=
  match handleEvent env id data st with
  | .ok st' => st'
  | .error _ => st

/-- Events applied one at a time, in delivery order. -/
def applyEvents (env : Env) (id : String) (st : Page) (events : List JSVal) : Page :=
  events.foldl (onmessage env id) st

/-! ## playTurn -/

/-- The callback of `matchDetails.turns.find(turn => turn._id === cur)`:
the first element whose `_id` is strictly equal to `cur`, `undefined` when
there is none; reading `_id` of a `null` element raises. -/
def findTurn (cur : JSVal) : List JSVal → Except JSError JSVal
  | [] => .ok .undefined
  | t :: rest =>
      match getProp t "_id" with
      | .error e => .error e
      | .ok tid => if strictEq tid cur then .ok t else findTurn cur rest

/-- The callback of `moves.some(move => move.playerId === currentUserId)`. -/
def someMove (currentUserId : JSVal) : List JSVal → Except JSError Bool
  | [] => .ok false
  | m :: rest =>
      match getProp m "playerId" with
      | .error e => .error e
      | .ok pid => if strictEq pid currentUserId then .ok true else someMove currentUserId rest

/-- Result of the local validation of `playTurn`. -/
inductive Check where
  | reject (message : String)
  | proceed (currentTurnId : JSVal)

/-- The part of `playTurn` before its `try` block (source lines 105 to 117).
A method call on a value that is no array (`find`, `some`) and a property
read on `undefined` raise a `TypeError`, which nothing catches. -/
def localCheck (env : Env) (st : Page) : Except JSError Check := do
  if !truthy st.matchDetails then
    pure (.reject "No current turn available.")
  else
    let cur ← getProp st.matchDetails "currentTurnId"
    if !truthy cur then
      pure (.reject "No current turn available.")
    else
      let currentUserId :=
        match env.userId with
        | some u => JSVal.str u
        | none => JSVal.null
      let turns ← getProp st.matchDetails "turns"
      match turns with
      | .arr ts =>
          let currentTurn ← findTurn cur ts
          let moves ← getProp currentTurn "moves"
          let played ←
            if truthy moves then
              match moves with
              | .arr ms => someMove currentUserId ms
              | _ => .error .typeError
            else pure false
          if played then
            pure (.reject "You have already played your move for this turn.")
          else
            pure (.proceed cur)
      | _ => .error .typeError

/-- Outcome of the submission request: the transport failed, or a response
arrived with its status and, for the body, the JSON object it holds (`none`
when `response.json()` rejects).  The interface answers a rejection with a
JSON object; bodies that are JSON values of another shape are not modelled. -/
inductive FetchResult where
  | failed
  | response (status : Nat) (body : Option (List (String × JSVal)))

/-- The submission request of `playTurn`. -/
def playRequest (env : Env) (id : String) (turnSegment : String) (move turn : JSVal) : Request :=
  .playTurn (env.apiUrl ++ "/matches/" ++ id ++ "/turns/" ++ turnSegment) (bearer env) move turn

/-- The `try` block of `playTurn` (source lines 119 to 139) with its `catch`:
the request is built and sent, then the response is interpreted. -/
def submitTurn (env : Env) (id : String) (cur move turn : JSVal) (net : FetchResult)
    (st : Page) : Page :=
  let netError := JSVal.str "Network error when trying to play turn."
  match toStr cur with
  | .error _ => { st with error := netError }
  | .ok seg =>
      let sent := { st with requests := st.requests ++ [playRequest env id seg move turn] }
      match net with
      | .failed => { sent with error := netError }
      | .response status body =>
          if status = 400 then
            match body with
            | none => { sent with error := netError }
            | some responseData =>
                let reason :=
                  jsOr (field responseData "turn") (jsOr (field responseData "match")
                    (jsOr (field responseData "user") (.str "Failed to play turn.")))
                { sent with error := reason }
          else if status = 202 then
            { sent with gameStatus := "Move submitted, waiting for next event...",
                        error := .str "" }
          else sent

/-- The function `playTurn(move, turn)`; `net` is what the network answers if
a request is sent.  An `error` result is an exception that leaves `playTurn`
uncaught. -/
def playTurn (env : Env) (id : String) (move turn : JSVal) (net : FetchResult) (st : Page) :
    Except JSError Page :=
  match localCheck env st with
  | .error e => .error e
  | .ok (.reject message) => .ok { st with error := .str message }
  | .ok (.proceed cur) => .ok (submitTurn env id cur move turn net st)

/-! ## The data model of the specification, as JSON -/

/-- A move: the player who made it, and whatever else the server sends. -/
structure Move where
  playerId : String
  extra : List (String × JSVal)

/-- A turn: its identifier, its moves, and whatever else the server sends. -/
structure Turn where
  _id : String
  moves : List Move
  extra : List (String × JSVal)

/-- A match snapshot: its turns, the current turn id if any, and whatever
else the server sends (the win tallies among it). -/
structure Match where
  turns : List Turn
  currentTurnId : Option String
  extra : List (String × JSVal)

/-- JSON form of a move. -/
def Move.toJS (m : Move) : JSVal :=
  .obj (("playerId", .str m.playerId) :: m.extra)

/-- JSON form of a turn. -/
def Turn.toJS (t : Turn) : JSVal :=
  .obj (("_id", .str t._id) :: ("moves", .arr (t.moves.map Move.toJS)) :: t.extra)

/-- JSON form of an optional identifier. -/
def idToJS : Option String → JSVal
  | some s => .str s
  | none => .null

/-- JSON form of a match snapshot.  The component reads properties by name
only, so the order of the keys carries no information. -/
def Match.toJS (m : Match) : JSVal :=
  .obj (("turns", .arr (m.turns.map Turn.toJS)) :: ("currentTurnId", idToJS m.currentTurnId)
    :: m.extra)

/-- The turn that `currentTurnId` references: the first turn of the sequence
carrying that identifier. -/
def Match.currentTurn (m : Match) : Option Turn :=
  match m.currentTurnId with
  | some cur => m.turns.find? (fun t => t._id == cur)
  | none => none

/-- Does the turn hold a move of the user `userId` (the `localStorage` entry)? -/
def Turn.playedBy (t : Turn) (userId : Option String) : Bool :=
  t.moves.any (fun mv => some mv.playerId == userId)

/-! ## The event stream: setupEventSource and useEffect -/

/-- What the closures created during one render capture: the route
parameter `id` and the value of the `eventSource` state cell at that render
(a handle into the list of created sources, `none` for `null`). -/
structure Render where
  id : String
  eventSource : Option Nat

/-- An `EventSourcePolyfill` object: its URL and header, whether `close()`
was called on it, and the render whose `setupEventSource` created it (its
`onerror` callback re-schedules that same function). -/
structure Source where
  url : String
  authorization : String
  closed : Bool
  owner : Render

/-- The component together with the resources it created: the page state,
the `eventSource` state cell, every source created so far (a handle is an
index), the pending `setTimeout(setupEventSource, 5000)` callbacks with the
render each is bound to, whether the component is mounted, and the render
whose effect ran last (its clean-up function is the one still to run). -/
structure Component where
  page : Page
  eventSource : Option Nat
  sources : List Source
  timers : List Render
  mounted : Bool
  effect : Render

/-- The call `es.close()` on the source with handle `h`. -/
def closeSource : Nat → List Source → List Source
  | _, [] => []
  | 0, s :: rest => { s with closed := true } :: rest
  | h + 1, s :: rest => s :: closeSource h rest

/-- The expression `eventSource && eventSource.close()` and the statement
`if (eventSource) eventSource.close()`, with the `eventSource` of render `r`. -/
def closeCaptured (r : Render) (sources : List Source) : List Source :=
  match r.eventSource with
  | some h => closeSource h sources
  | none => sources

/-- The function `setupEventSource` of render `r` (source lines 48 to 71):
close the captured source if there is one, create a new source, store it in
the state cell (a state setter does nothing once the component is unmounted). -/
def setupEventSource (env : Env) (r : Render) (c : Component) : Component :=
  let sources := closeCaptured r c.sources
  let es : Source :=
    { url := env.apiUrl ++ "/matches/" ++ r.id ++ "/subscribe",
      authorization := bearer env, closed := false, owner := r }
  { c with sources := sources ++ [es],
           eventSource := if c.mounted then some sources.length else c.eventSource }

/-- The effect of `useEffect` for render `r` (source lines 19 and 20); its
clean-up function (line 21) is `closeCaptured r`. -/
def runEffect (env : Env) (r : Render) (c : Component) : Component :=
  setupEventSource env r { c with page := fetchMatchDetails env r.id c.page, effect := r }

/-- Activation: the first render, with the initial state, and its effect. -/
def mount (env : Env) (id : String) : Component :=
  runEffect env { id := id, eventSource := none }
    { page := Page.initial, eventSource := none, sources := [], timers := [],
      mounted := true, effect := { id := id, eventSource := none } }

/-- The `onerror` callback of the source with handle `h` (source lines 64 to
68); a closed source dispatches nothing. -/
def onerror (h : Nat) (c : Component) : Component :=
  match c.sources.get? h with
  | none => c
  | some s =>
      if s.closed then c
      else
        { c with
          page := if c.mounted then
                    { c.page with error := .str "SSE connection error, will retry..." }
                  else c.page,
          sources := closeSource h c.sources,
          timers := c.timers ++ [s.owner] }

/-- What can happen to the stream client after activation. -/
inductive Step where
  | changeId (id : String)
  | unmount
  | streamError (h : Nat)
  | timerExpires (k : Nat)

/-- One step of the stream client.  A change of the route parameter
re-renders, runs the clean-up of the previous effect and then the effect of
the new render; unmounting runs the clean-up; an expired timer runs the
`setupEventSource` it was given. -/
def step (env : Env) (c : Component) : Step → Component
  | .changeId id =>
      if c.mounted && id != c.effect.id then
        runEffect env { id := id, eventSource := c.eventSource }
          { c with sources := closeCaptured c.effect c.sources }
      else c
  | .unmount =>
      if c.mounted then
        { c with sources := closeCaptured c.effect c.sources, mounted := false }
      else c
  | .streamError h => onerror h c
  | .timerExpires k =>
      match c.timers.get? k with
      | none => c
      | some r => setupEventSource env r { c with timers := c.timers.eraseIdx k }

/-- The state reached from activation on match `id` by a sequence of steps. -/
def run (env : Env) (id : String) (steps : List Step) : Component :=
  steps.foldl (step env) (mount env id)

/-- The live subscriptions: the sources created and not closed. -/
def liveSources (c : Component) : List Source :=
  c.sources.filter (fun s => !s.closed)

/-! ## Vocabulary of the specification -/

/-- An absent value in the sense of the specification: `null`, `undefined`
or the empty string. -/
def absent : JSVal → Bool
  | .undefined => true
  | .null => true
  | .str s => s == ""
  | _ => false

/-- The event kinds that the `switch` of `handleEvent` has a case for. -/
def recognisedKinds : List String :=
  ["PLAYER1_JOIN", "PLAYER2_JOIN", "NEW_TURN", "TURN_ENDED", "PLAYER1_MOVED", "PLAYER2_MOVED",
   "MATCH_ENDED"]

/-- Is the kind one of the recognised ones? -/
def recognised (kind : JSVal) : Bool :=
  recognisedKinds.any (fun name => strictEq kind (.str name))

/-- Is `data.type` readable and strictly equal to the string `name`? -/
def kindIs (data : JSVal) (name : String) : Bool :=
  match getProp data "type" with
  | .ok kind => strictEq kind (.str name)
  | .error _ => false

/-- The structural events. -/
def isNewTurn (data : JSVal) : Bool := kindIs data "NEW_TURN"

/-- The events after which the snapshot is fetched again. -/
def isEnded (data : JSVal) : Bool := kindIs data "TURN_ENDED" || kindIs data "MATCH_ENDED"

/-- Can the template text `data.payload.name` be built: is `data.payload`
neither `null` nor `undefined`, and does its property `name` convert to a string? -/
def carries (data : JSVal) (name : String) : Bool :=
  match getProp data "payload" with
  | .error _ => false
  | .ok payload =>
      match getProp payload name with
      | .error _ => false
      | .ok v =>
          match toStr v with
          | .error _ => false
          | .ok _ => true

/-- A `TURN_ENDED` or `MATCH_ENDED` event whose winner can be displayed. -/
def endedWithWinner (data : JSVal) : Bool := isEnded data && carries data "winner"

/-! ## Sample inputs -/

/-- An environment with a logged-in user `u1`. -/
def sampleEnv : Env := { apiUrl := "http://api", token := some "tok", userId := some "u1" }

/-- An event of the given kind with the given payload fields. -/
def mkEvent (kind : String) (payload : List (String × JSVal)) : JSVal :=
  .obj [("type", .str kind), ("payload", .obj payload)]

/-- The page after a load answered with the given snapshot. -/
def loaded (snapshot : JSVal) : Page :=
  fetchMatchDetailsDone (.response true (some snapshot)) (fetchMatchDetails sampleEnv "m1" Page.initial)

/-- Snapshot with no turn at all: `{turns: [], currentTurnId: null}`. -/
def emptyMatch : Match := { turns := [], currentTurnId := none, extra := [] }

/-- Snapshot whose current turn `t1` has no move yet. -/
def openMatch : Match :=
  { turns := [{ _id := "t1", moves := [], extra := [] }], currentTurnId := some "t1",
    extra := [("player1Wins", .num 1), ("player2Wins", .num 0)] }

/-- A turn `t1` holding a move of user `u1`. -/
def playedTurn : Turn :=
  { _id := "t1", moves := [{ playerId := "u1", extra := [("move", .str "rock")] }], extra := [] }

/-- Snapshot whose current turn is `playedTurn`. -/
def playedMatch : Match :=
  { turns := [playedTurn], currentTurnId := some "t1", extra := [] }

/-- A turn `t1` without any move. -/
def openTurn : Turn := { _id := "t1", moves := [], extra := [] }

/-- The page after loading `emptyMatch`. -/
def emptyPage : Page := loaded emptyMatch.toJS

/-- The page after loading `openMatch`. -/
def openPage : Page := loaded openMatch.toJS

/-- The page after loading `playedMatch`. -/
def playedPage : Page := loaded playedMatch.toJS

/-- An event of a kind the handler does not know, without payload. -/
def pingEvent : JSVal := .obj [("type", .str "PING")]

/-! ## Lemmas on the JavaScript primitives -/

theorem truthy_of_absent {v : JSVal} (h : absent v = true) : truthy v = false := by
  cases v <;> simp_all [absent, truthy]

theorem strictEq_str_iff (k : JSVal) (name : String) :
    strictEq k (.str name) = true ↔ k = .str name := by
  cases k <;> simp [strictEq]

theorem toStr_of_strictEq {a b : JSVal} (h : strictEq a b = true) : ∃ seg, toStr b = .ok seg := by
  cases a <;> cases b <;> simp_all [strictEq, toStr]

theorem bearer_eq (env : Env) : bearer env = "Bearer " ++ env.token.getD "null" := by
  unfold bearer
  cases env.token <;> rfl

theorem loadRequest_eq (env : Env) (id : String) :
    loadRequest env id
      = .loadMatch (env.apiUrl ++ "/matches/" ++ id) ("Bearer " ++ env.token.getD "null") := by
  rw [loadRequest, bearer_eq]

theorem playRequest_eq (env : Env) (id seg : String) (move turn : JSVal) :
    playRequest env id seg move turn
      = .playTurn (env.apiUrl ++ "/matches/" ++ id ++ "/turns/" ++ seg)
          ("Bearer " ++ env.token.getD "null") move turn := by
  rw [playRequest, bearer_eq]

/-! ## Lemmas on handleEvent -/

theorem handleEvent_unrecognised (env : Env) (id : String) (data kind : JSVal) (st : Page)
    (hk : getProp data "type" = .ok kind) (hu : recognised kind = false) :
    handleEvent env id data st = .ok { st with gameStatus := "Update received from game." } := by
  simp [recognised, recognisedKinds] at hu
  simp [handleEvent, hk, hu, bind, Except.bind, pure, Except.pure]

theorem handleEvent_structural (env : Env) (id : String) (data : JSVal) (st st' : Page)
    (h : handleEvent env id data st = .ok st') :
    st'.player1Wins = st.player1Wins ∧ st'.player2Wins = st.player2Wins ∧
    (isNewTurn data = false → st'.matchDetails = st.matchDetails) ∧
    (isEnded data = false → st'.requests = st.requests) := by
  unfold handleEvent at h
  unfold isNewTurn isEnded kindIs
  cases hk : getProp data "type" with
  | error e => simp [hk, bind, Except.bind] at h
  | ok kind =>
      simp only [hk, bind, Except.bind, pure, Except.pure] at h
      split_ifs at h <;> (repeat' (split at h))
      all_goals first
        | (injection h with h; subst h; simp_all [fetchMatchDetails])
        | simp_all

theorem onmessage_structural (env : Env) (id : String) (data : JSVal) (st : Page) :
    (onmessage env id st data).player1Wins = st.player1Wins ∧
    (onmessage env id st data).player2Wins = st.player2Wins ∧
    (isNewTurn data = false → (onmessage env id st data).matchDetails = st.matchDetails) ∧
    (isEnded data = false → (onmessage env id st data).requests = st.requests) := by
  unfold onmessage
  cases h : handleEvent env id data st with
  | error e => simp
  | ok st' => exact handleEvent_structural env id data st st' h

theorem handleEvent_newTurn (env : Env) (id : String) (data : JSVal)
    (hn : isNewTurn data = true) :
    (∃ e, ∀ st, handleEvent env id data st = .error e) ∨
    (∃ turnId s, ∀ st, handleEvent env id data st
      = .ok { st with
          gameStatus := "Turn " ++ s ++ " has started",
          matchDetails := .obj (setField (spread st.matchDetails) "currentTurnId" turnId) }) := by
  unfold isNewTurn kindIs at hn
  cases hk : getProp data "type" with
  | error e => simp [hk] at hn
  | ok kind =>
      simp only [hk, strictEq_str_iff] at hn
      subst hn
      cases hp : getProp data "payload" with
      | error e =>
          exact Or.inl ⟨e, fun st => by
            simp [handleEvent, hk, hp, strictEq, bind, Except.bind]⟩
      | ok payload =>
          cases ht : getProp payload "turnId" with
          | error e =>
              exact Or.inl ⟨e, fun st => by
                simp [handleEvent, hk, hp, ht, strictEq, bind, Except.bind]⟩
          | ok turnId =>
              cases hs : toStr turnId with
              | error e =>
                  exact Or.inl ⟨e, fun st => by
                    simp [handleEvent, hk, hp, ht, hs, strictEq, bind, Except.bind]⟩
              | ok s =>
                  exact Or.inr ⟨turnId, s, fun st => by
                    simp [handleEvent, hk, hp, ht, hs, strictEq, bind, Except.bind, pure,
                      Except.pure]⟩

theorem handleEvent_ended (env : Env) (id : String) (data : JSVal)
    (hn : isEnded data = true) :
    (carries data "winner" = false ∧ ∃ e, ∀ st, handleEvent env id data st = .error e) ∨
    (carries data "winner" = true ∧ ∃ s, ∀ st, handleEvent env id data st
      = .ok (fetchMatchDetails env id { st with gameStatus := s })) := by
  unfold isEnded kindIs at hn
  cases hk : getProp data "type" with
  | error e => simp [hk] at hn
  | ok kind =>
      simp only [hk, Bool.or_eq_true, strictEq_str_iff] at hn
      cases hp : getProp data "payload" with
      | error e =>
          refine Or.inl ⟨by simp [carries, hp], e, fun st => ?_⟩
          rcases hn with hn | hn <;> subst hn <;>
            simp [handleEvent, hk, hp, strictEq, bind, Except.bind]
      | ok payload =>
          cases ht : getProp payload "winner" with
          | error e =>
              refine Or.inl ⟨by simp [carries, hp, ht], e, fun st => ?_⟩
              rcases hn with hn | hn <;> subst hn <;>
                simp [handleEvent, hk, hp, ht, strictEq, bind, Except.bind]
          | ok winner =>
              cases hs : toStr winner with
              | error e =>
                  refine Or.inl ⟨by simp [carries, hp, ht, hs], e, fun st => ?_⟩
                  rcases hn with hn | hn <;> subst hn <;>
                    simp [handleEvent, hk, hp, ht, hs, strictEq, bind, Except.bind]
              | ok s =>
                  rcases hn with hn | hn <;> subst hn
                  · exact Or.inr ⟨by simp [carries, hp, ht, hs], _, fun st => by
                      simp only [handleEvent, hk, hp, ht, hs, strictEq, bind, Except.bind, pure,
                        Except.pure]
                      rfl⟩
                  · exact Or.inr ⟨by simp [carries, hp, ht, hs], _, fun st => by
                      simp only [handleEvent, hk, hp, ht, hs, strictEq, bind, Except.bind, pure,
                        Except.pure]
                      rfl⟩

theorem onmessage_uniform (env : Env) (id : String) (data : JSVal) (st₁ st₂ : Page)
    (h : st₁.matchDetails = st₂.matchDetails) :
    (onmessage env id st₁ data).matchDetails = (onmessage env id st₂ data).matchDetails := by
  cases hn : isNewTurn data with
  | false =>
      rw [(onmessage_structural env id data st₁).2.2.1 hn,
        (onmessage_structural env id data st₂).2.2.1 hn, h]
  | true =>
      unfold onmessage
      rcases handleEvent_newTurn env id data hn with ⟨e, he⟩ | ⟨turnId, s, hs⟩
      · simp [he, h]
      · simp [hs, h]

theorem onmessage_requests (env : Env) (id : String) (data : JSVal) (st : Page) :
    (onmessage env id st data).requests
      = st.requests ++ (if endedWithWinner data then [loadRequest env id] else []) := by
  cases hn : isEnded data with
  | false =>
      simp [endedWithWinner, hn, (onmessage_structural env id data st).2.2.2 hn]
  | true =>
      unfold onmessage
      rcases handleEvent_ended env id data hn with ⟨hc, e, he⟩ | ⟨hc, s, hs⟩
      · simp [endedWithWinner, hn, hc, he]
      · simp [endedWithWinner, hn, hc, hs, fetchMatchDetails]

theorem isNewTurn_not_ended (data : JSVal) (hn : isNewTurn data = true) :
    isEnded data = false := by
  unfold isNewTurn kindIs at hn
  unfold isEnded kindIs
  cases hk : getProp data "type" with
  | error e => simp [hk] at hn
  | ok kind =>
      simp only [hk, strictEq_str_iff] at hn
      subst hn
      rfl

/-! ## Lemmas on event sequences -/

theorem applyEvents_cons (env : Env) (id : String) (st : Page) (e : JSVal) (es : List JSVal) :
    applyEvents env id st (e :: es) = applyEvents env id (onmessage env id st e) es := rfl

theorem applyEvents_wins (env : Env) (id : String) (events : List JSVal) (st : Page) :
    (applyEvents env id st events).player1Wins = st.player1Wins ∧
    (applyEvents env id st events).player2Wins = st.player2Wins := by
  induction events generalizing st with
  | nil => exact ⟨rfl, rfl⟩
  | cons e es ih =>
      rw [applyEvents_cons]
      have hs := onmessage_structural env id e st
      exact ⟨(ih _).1.trans hs.1, (ih _).2.trans hs.2.1⟩

theorem applyEvents_snapshot (env : Env) (id : String) (events : List JSVal) (st₁ st₂ : Page)
    (h : st₁.matchDetails = st₂.matchDetails) :
    (applyEvents env id st₁ events).matchDetails
      = (applyEvents env id st₂ (events.filter isNewTurn)).matchDetails := by
  induction events generalizing st₁ st₂ with
  | nil => exact h
  | cons e es ih =>
      rw [applyEvents_cons]
      cases hn : isNewTurn e with
      | true =>
          rw [List.filter_cons_of_pos hn, applyEvents_cons]
          exact ih _ _ (onmessage_uniform env id e st₁ st₂ h)
      | false =>
          rw [List.filter_cons_of_neg (by simp [hn])]
          exact ih _ _ (((onmessage_structural env id e st₁).2.2.1 hn).trans h)

theorem applyEvents_newTurn_requests (env : Env) (id : String) (events : List JSVal) (st : Page) :
    (applyEvents env id st (events.filter isNewTurn)).requests = st.requests := by
  induction events generalizing st with
  | nil => rfl
  | cons e es ih =>
      cases hn : isNewTurn e with
      | true =>
          rw [List.filter_cons_of_pos hn, applyEvents_cons, ih]
          exact (onmessage_structural env id e st).2.2.2 (isNewTurn_not_ended e hn)
      | false =>
          rw [List.filter_cons_of_neg (by simp [hn])]
          exact ih st

theorem applyEvents_requests (env : Env) (id : String) (events : List JSVal) (st : Page) :
    (applyEvents env id st events).requests
      = st.requests ++ List.replicate (events.countP endedWithWinner) (loadRequest env id) := by
  induction events generalizing st with
  | nil => simp [applyEvents]
  | cons e es ih =>
      rw [applyEvents_cons, ih, onmessage_requests]
      cases he : endedWithWinner e with
      | true =>
          rw [List.countP_cons_of_pos _ _ he]
          simp [List.replicate_succ]
      | false =>
          rw [List.countP_cons_of_neg _ _ (by simp [he])]
          simp

/-! ## Lemmas on playTurn -/

theorem localCheck_absent (env : Env) (st : Page)
    (h : absent st.matchDetails = true ∨
      ∃ v, getProp st.matchDetails "currentTurnId" = .ok v ∧ absent v = true) :
    localCheck env st = .ok (.reject "No current turn available.") := by
  rcases h with h | ⟨v, hv, ha⟩
  · simp [localCheck, truthy_of_absent h, pure, Except.pure]
  · by_cases hm : truthy st.matchDetails = true
    · simp [localCheck, hm, hv, truthy_of_absent ha, bind, Except.bind, pure, Except.pure]
    · simp [localCheck, hm, pure, Except.pure]

theorem findTurn_toJS (cur : String) (ts : List Turn) :
    findTurn (.str cur) (ts.map Turn.toJS)
      = .ok (match ts.find? (fun t => t._id == cur) with
             | some t => t.toJS
             | none => .undefined) := by
  induction ts with
  | nil => rfl
  | cons t rest ih =>
      by_cases h : (t._id == cur) = true
      · simp [findTurn, Turn.toJS, getProp, field, List.lookup, strictEq, h, List.find?]
      · simp only [Bool.not_eq_true] at h
        simp [findTurn, getProp, field, List.lookup, strictEq, h, List.find?] at ih ⊢
        simp [Turn.toJS, field, List.lookup, strictEq, h, ih]

theorem someMove_toJS (userId : Option String) (ms : List Move) :
    someMove (idToJS userId) (ms.map Move.toJS)
      = .ok (ms.any (fun mv => some mv.playerId == userId)) := by
  induction ms with
  | nil => rfl
  | cons m rest ih =>
      cases userId with
      | none => simp [someMove, Move.toJS, getProp, field, List.lookup, idToJS, strictEq] at ih ⊢; exact ih
      | some u =>
          by_cases h : (m.playerId == u) = true
          · simp [someMove, Move.toJS, getProp, field, List.lookup, idToJS, strictEq, h]
          · simp only [Bool.not_eq_true] at h
            simp [someMove, Move.toJS, getProp, field, List.lookup, idToJS, strictEq, h] at ih ⊢
            simp [ih]

theorem localCheck_toJS (env : Env) (st : Page) (m : Match) (cur : String) (t : Turn)
    (hst : st.matchDetails = m.toJS) (hcur : m.currentTurnId = some cur) (hne : cur ≠ "")
    (ht : m.currentTurn = some t) :
    localCheck env st
      = .ok (if t.playedBy env.userId then
               .reject "You have already played your move for this turn."
             else .proceed (.str cur)) := by
  have hfind : m.turns.find? (fun t => t._id == cur) = some t := by
    simpa [Match.currentTurn, hcur] using ht
  have huser : (match env.userId with | some u => JSVal.str u | none => JSVal.null)
      = idToJS env.userId := by cases env.userId <;> rfl
  simp [localCheck, hst, Match.toJS, truthy, getProp, field, List.lookup, hcur, idToJS, hne,
    bind, Except.bind, pure, Except.pure, findTurn_toJS, hfind]
  simp [Turn.toJS, field, List.lookup, truthy, huser, someMove_toJS, Turn.playedBy]
  split <;> rfl

theorem findTurn_found (cur : JSVal) (ts : List JSVal) (t : JSVal)
    (h : findTurn cur ts = .ok t) : t = .undefined ∨ ∃ tid, strictEq tid cur = true := by
  induction ts with
  | nil => simp [findTurn] at h; exact Or.inl h.symm
  | cons x rest ih =>
      unfold findTurn at h
      cases hx : getProp x "_id" with
      | error e => simp [hx] at h
      | ok tid =>
          simp only [hx] at h
          by_cases hc : strictEq tid cur = true
          · exact Or.inr ⟨tid, hc⟩
          · simp only [hc] at h
            exact ih h

theorem localCheck_proceed (env : Env) (st : Page) (cur : JSVal)
    (h : localCheck env st = .ok (.proceed cur)) : ∃ seg, toStr cur = .ok seg := by
  unfold localCheck at h
  by_cases hm : truthy st.matchDetails = true
  · simp only [hm, Bool.not_true, bind, Except.bind] at h
    cases hc : getProp st.matchDetails "currentTurnId" with
    | error e => simp [hc] at h
    | ok c =>
        simp only [hc] at h
        by_cases htc : truthy c = true
        · simp only [htc, Bool.not_true] at h
          cases hts : getProp st.matchDetails "turns" with
          | error e => simp [hts] at h
          | ok turns =>
              simp only [hts] at h
              cases turns with
              | arr ts =>
                  simp only at h
                  cases hf : findTurn c ts with
                  | error e => simp [hf] at h
                  | ok t =>
                      simp only [hf] at h
                      rcases findTurn_found c ts t hf with hu | ⟨tid, heq⟩
                      · subst hu
                        simp [getProp] at h
                      · have hcur : cur = c := by
                          cases hmv : getProp t "moves" with
                          | error e => simp [hmv] at h
                          | ok moves =>
                              simp only [hmv] at h
                              by_cases htm : truthy moves = true
                              · simp only [htm, if_true] at h
                                cases moves with
                                | arr ms =>
                                    simp only at h
                                    generalize someMove _ ms = r at h
                                    cases r with
                                    | error e => simp at h
                                    | ok b =>
                                        cases b <;> simp [pure, Except.pure] at h
                                        exact h.symm
                                | _ => simp at h
                              · simp [htm, pure, Except.pure] at h
                                exact h.symm
                        subst hcur
                        exact toStr_of_strictEq heq
              | _ => simp at h
        · simp [htc, pure, Except.pure] at h
  · simp [hm, pure, Except.pure] at h

/-! ## Claims on playTurn -/

/-- C1. When the match snapshot is absent, or its `currentTurnId` is absent
(`null`, `undefined` or empty), `playTurn` ends, for every move, turn selector
and network behaviour, in the state it started from with only the error
replaced by "No current turn available.": the request log, the snapshot, the
win tallies and the game status are those of the start state. -/
theorem playTurn_rejects_without_current_turn (env : Env) (id : String) (move turn : JSVal)
    (net : FetchResult) (st : Page)
    (h : absent st.matchDetails = true ∨
      ∃ v, getProp st.matchDetails "currentTurnId" = .ok v ∧ absent v = true) :
    playTurn env id move turn net st
      = .ok { st with error := .str "No current turn available." } := by
  simp [playTurn, localCheck_absent env st h]

theorem playTurn_rejects_without_current_turn_witness :
    (∃ v, getProp emptyPage.matchDetails "currentTurnId" = .ok v ∧
      absent v = true) ∧
    playTurn sampleEnv "m1" (.str "rock") (.num 1) (.response 202 none) emptyPage
      = .ok { emptyPage with error := .str "No current turn available." } :=
  ⟨⟨.null, rfl, rfl⟩,
    playTurn_rejects_without_current_turn sampleEnv "m1" (.str "rock") (.num 1)
      (.response 202 none) emptyPage (Or.inr ⟨.null, rfl, rfl⟩)⟩

/-- C2. When the snapshot is a match whose `currentTurnId` is present and
references a turn of the turn sequence, and that turn holds a move whose
`playerId` is the acting user's id, `playTurn` ends, for every move, turn
selector and network behaviour, in the start state with only the error replaced
by "You have already played your move for this turn.": no request is logged and
the snapshot is unchanged. -/
theorem playTurn_rejects_when_already_played (env : Env) (id : String) (move turn : JSVal)
    (net : FetchResult) (st : Page) (m : Match) (cur : String) (t : Turn)
    (hst : st.matchDetails = m.toJS) (hcur : m.currentTurnId = some cur) (hne : cur ≠ "")
    (ht : m.currentTurn = some t) (hplayed : t.playedBy env.userId = true) :
    playTurn env id move turn net st
      = .ok { st with error := .str "You have already played your move for this turn." } := by
  simp [playTurn, localCheck_toJS env st m cur t hst hcur hne ht, hplayed]

theorem playTurn_rejects_when_already_played_witness :
    playedMatch.currentTurn = some playedTurn ∧
    playTurn sampleEnv "m1" (.str "paper") (.num 1) (.response 202 none) playedPage
      = .ok { playedPage with
          error := .str "You have already played your move for this turn." } :=
  ⟨rfl,
    playTurn_rejects_when_already_played sampleEnv "m1" (.str "paper") (.num 1)
      (.response 202 none) playedPage playedMatch "t1" playedTurn
      rfl rfl (by decide) rfl rfl⟩

/-- C3, evaluated on the code: with the local checks passed, a response of
status 500 or 401 leaves the error as it was (here the empty string): the
request is logged and nothing else changes, no network-error message is set. -/
theorem playTurn_other_status_sets_no_error :
    playTurn sampleEnv "m1" (.str "rock") (.num 1) (.response 500 none) openPage
      = .ok { openPage with
          requests := openPage.requests
            ++ [playRequest sampleEnv "m1" "t1" (.str "rock") (.num 1)] } ∧
    playTurn sampleEnv "m1" (.str "rock") (.num 1) (.response 401 none) openPage
      = .ok { openPage with
          requests := openPage.requests
            ++ [playRequest sampleEnv "m1" "t1" (.str "rock") (.num 1)] } ∧
    openPage.error = .str "" :=
  ⟨rfl, rfl, rfl⟩

/-- C4. When `playTurn` passes its local checks and the response has status
400 with a JSON object as body, the error becomes the `turn` reason whenever
one is given (truthy), otherwise the `match` reason, otherwise the `user`
reason, each verbatim, and "Failed to play turn." only when none of the three is
given; the game status and the snapshot are unchanged. -/
theorem playTurn_validation_reason_precedence (env : Env) (id : String) (move turn cur : JSVal)
    (body : List (String × JSVal)) (st : Page)
    (hpass : localCheck env st = .ok (.proceed cur)) :
    ∃ st', playTurn env id move turn (.response 400 (some body)) st = .ok st' ∧
      st'.gameStatus = st.gameStatus ∧ st'.matchDetails = st.matchDetails ∧
      (truthy (field body "turn") = true → st'.error = field body "turn") ∧
      (truthy (field body "turn") = false → truthy (field body "match") = true →
        st'.error = field body "match") ∧
      (truthy (field body "turn") = false → truthy (field body "match") = false →
        truthy (field body "user") = true → st'.error = field body "user") ∧
      (truthy (field body "turn") = false → truthy (field body "match") = false →
        truthy (field body "user") = false → st'.error = .str "Failed to play turn.") := by
  obtain ⟨seg, hseg⟩ := localCheck_proceed env st cur hpass
  refine ⟨submitTurn env id cur move turn (.response 400 (some body)) st, ?_, ?_, ?_, ?_, ?_, ?_, ?_⟩
  · simp [playTurn, hpass]
  all_goals (intros; simp [submitTurn, hseg, jsOr, *])

theorem playTurn_validation_reason_precedence_witness :
    localCheck sampleEnv openPage = .ok (.proceed (.str "t1")) ∧
    ∃ st', playTurn sampleEnv "m1" (.str "rock") (.num 1)
        (.response 400 (some [("match", .str "Match already finished"), ("user", .str "u")]))
        openPage = .ok st' ∧
      st'.error = .str "Match already finished" := by
  obtain ⟨st', h, _, _, _, hmatch, _, _⟩ :=
    playTurn_validation_reason_precedence sampleEnv "m1" (.str "rock") (.num 1) (.str "t1")
      [("match", .str "Match already finished"), ("user", .str "u")] openPage rfl
  exact ⟨rfl, st', h, hmatch rfl rfl⟩

/-- C5. When the snapshot is a match whose `currentTurnId` is present and
references a turn of the turn sequence that holds no move of the acting user,
`playTurn` logs exactly one more request, whatever the network answers: the
submission whose URL is `/matches/id/turns/currentTurnId` under the API root,
with the bearer token as `Authorization` header and the values `move` and
`turn` as body; the snapshot and the win tallies are unchanged; and if the
response has status 202 then, whatever the error was before, the error becomes
the empty string and the game status "Move submitted, waiting for next event...". -/
theorem playTurn_submits_once (env : Env) (id : String) (move turn : JSVal)
    (net : FetchResult) (st : Page) (m : Match) (cur : String) (t : Turn)
    (hst : st.matchDetails = m.toJS) (hcur : m.currentTurnId = some cur) (hne : cur ≠ "")
    (ht : m.currentTurn = some t) (hfree : t.playedBy env.userId = false) :
    ∃ st', playTurn env id move turn net st = .ok st' ∧
      st'.requests = st.requests ++
        [Request.playTurn (env.apiUrl ++ "/matches/" ++ id ++ "/turns/" ++ cur)
          ("Bearer " ++ env.token.getD "null") move turn] ∧
      st'.matchDetails = st.matchDetails ∧
      st'.player1Wins = st.player1Wins ∧ st'.player2Wins = st.player2Wins ∧
      (∀ body, net = .response 202 body →
        st'.error = .str "" ∧ st'.gameStatus = "Move submitted, waiting for next event...") := by
  rw [← playRequest_eq]
  refine ⟨submitTurn env id (.str cur) move turn net st, ?_, ?_, ?_, ?_, ?_, ?_⟩
  · simp [playTurn, localCheck_toJS env st m cur t hst hcur hne ht, hfree]
  · cases net with
    | failed => simp [submitTurn, toStr]
    | response status body =>
        cases body <;> simp [submitTurn, toStr] <;> split_ifs <;> rfl
  · cases net with
    | failed => simp [submitTurn, toStr]
    | response status body =>
        cases body <;> simp [submitTurn, toStr] <;> split_ifs <;> rfl
  · cases net with
    | failed => simp [submitTurn, toStr]
    | response status body =>
        cases body <;> simp [submitTurn, toStr] <;> split_ifs <;> rfl
  · cases net with
    | failed => simp [submitTurn, toStr]
    | response status body =>
        cases body <;> simp [submitTurn, toStr] <;> split_ifs <;> rfl
  · intro body hnet
    subst hnet
    simp [submitTurn, toStr]

theorem playTurn_submits_once_witness :
    openMatch.currentTurn = some openTurn ∧
    ∃ st', playTurn sampleEnv "m1" (.str "rock") (.num 1) (.response 202 none)
        { openPage with error := .str "SSE connection error, will retry..." } = .ok st' ∧
      st'.requests =
        [Request.loadMatch "http://api/matches/m1" "Bearer tok",
         Request.playTurn "http://api/matches/m1/turns/t1" "Bearer tok" (.str "rock") (.num 1)] ∧
      st'.error = .str "" ∧ st'.gameStatus = "Move submitted, waiting for next event..." := by
  obtain ⟨st', h, hreq, _, _, _, hacc⟩ :=
    playTurn_submits_once sampleEnv "m1" (.str "rock") (.num 1) (.response 202 none)
      { openPage with error := .str "SSE connection error, will retry..." } openMatch "t1"
      openTurn rfl rfl (by decide) rfl rfl
  exact ⟨rfl, st', h, hreq, hacc none rfl⟩

/-- C10, evaluated on the code: load a snapshot whose current turn is `t1`,
apply the stream event `NEW_TURN` with `turnId` `t2` (no turn `t2` is in the
turn sequence yet), then call `playTurn`: the lookup of the current turn yields
`undefined`, the read of its `moves` raises a `TypeError`, and `playTurn` ends
with that exception uncaught, whatever the network would answer. -/
theorem playTurn_raises_after_new_turn :
    getProp (applyEvents sampleEnv "m1" openPage
        [mkEvent "NEW_TURN" [("turnId", .str "t2")]]).matchDetails "currentTurnId"
      = .ok (.str "t2") ∧
    ∀ net, playTurn sampleEnv "m1" (.str "rock") (.num 1) net
      (applyEvents sampleEnv "m1" openPage [mkEvent "NEW_TURN" [("turnId", .str "t2")]])
        = .error .typeError :=
  ⟨rfl, fun _ => rfl⟩

/-! ## Claims on handleEvent -/

/-- C6. For every state and every finite sequence of stream events, each
`TURN_ENDED` and `MATCH_ENDED` event carrying its payload with a winner that
converts to a string: applying the events one at a time yields the same
snapshot (hence the same turn sequence and `currentTurnId`) and the same win
tallies as applying only the `NEW_TURN` events of the sequence in the same
order; applying only the `NEW_TURN` events issues no request; and applying the
whole sequence issues nothing but load requests of match `id`, as many as the
sequence has `TURN_ENDED` and `MATCH_ENDED` events. -/
theorem applyEvents_refines_newTurn (env : Env) (id : String) (st : Page)
    (events : List JSVal)
    (hpayload : ∀ e ∈ events, isEnded e = true → carries e "winner" = true) :
    (applyEvents env id st events).matchDetails
      = (applyEvents env id st (events.filter isNewTurn)).matchDetails ∧
    getProp (applyEvents env id st events).matchDetails "turns"
      = getProp (applyEvents env id st (events.filter isNewTurn)).matchDetails "turns" ∧
    getProp (applyEvents env id st events).matchDetails "currentTurnId"
      = getProp (applyEvents env id st (events.filter isNewTurn)).matchDetails
          "currentTurnId" ∧
    (applyEvents env id st events).player1Wins
      = (applyEvents env id st (events.filter isNewTurn)).player1Wins ∧
    (applyEvents env id st events).player2Wins
      = (applyEvents env id st (events.filter isNewTurn)).player2Wins ∧
    (applyEvents env id st (events.filter isNewTurn)).requests = st.requests ∧
    (applyEvents env id st events).requests
      = st.requests ++ List.replicate (events.countP isEnded)
          (Request.loadMatch (env.apiUrl ++ "/matches/" ++ id)
            ("Bearer " ++ env.token.getD "null")) ∧
    (applyEvents env id st events).requests.countP Request.isLoad
      = st.requests.countP Request.isLoad + events.countP isEnded := by
  have hsnap := applyEvents_snapshot env id events st st rfl
  have hw := applyEvents_wins env id events st
  have hw' := applyEvents_wins env id (events.filter isNewTurn) st
  have hcount : events.countP endedWithWinner = events.countP isEnded := by
    apply List.countP_congr
    intro e he
    cases hk : isEnded e with
    | false => simp [endedWithWinner, hk]
    | true => simp [endedWithWinner, hk, hpayload e he hk]
  have hreq := applyEvents_requests env id events st
  rw [hcount, loadRequest_eq] at hreq
  refine ⟨hsnap, by rw [hsnap], by rw [hsnap], hw.1.trans hw'.1.symm, hw.2.trans hw'.2.symm,
    applyEvents_newTurn_requests env id events st, hreq, ?_⟩
  rw [hreq, List.countP_append, List.countP_replicate]
  simp [Request.isLoad]

theorem applyEvents_refines_newTurn_witness :
    (∀ e ∈ [mkEvent "NEW_TURN" [("turnId", .str "t2")],
        mkEvent "TURN_ENDED" [("winner", .str "p1")], pingEvent,
        mkEvent "PLAYER1_MOVED" [("turn", .num 2)], mkEvent "MATCH_ENDED" [("winner", .null)]],
      isEnded e = true → carries e "winner" = true) ∧
    (applyEvents sampleEnv "m1" openPage
      [mkEvent "NEW_TURN" [("turnId", .str "t2")],
        mkEvent "TURN_ENDED" [("winner", .str "p1")], pingEvent,
        mkEvent "PLAYER1_MOVED" [("turn", .num 2)],
        mkEvent "MATCH_ENDED" [("winner", .null)]]).requests
      = [Request.loadMatch "http://api/matches/m1" "Bearer tok",
         Request.loadMatch "http://api/matches/m1" "Bearer tok",
         Request.loadMatch "http://api/matches/m1" "Bearer tok"] ∧
    getProp (applyEvents sampleEnv "m1" openPage
      [mkEvent "NEW_TURN" [("turnId", .str "t2")],
        mkEvent "TURN_ENDED" [("winner", .str "p1")], pingEvent,
        mkEvent "PLAYER1_MOVED" [("turn", .num 2)],
        mkEvent "MATCH_ENDED" [("winner", .null)]]).matchDetails "currentTurnId"
      = .ok (.str "t2") := by
  have hp : ∀ e ∈ [mkEvent "NEW_TURN" [("turnId", .str "t2")],
        mkEvent "TURN_ENDED" [("winner", .str "p1")], pingEvent,
        mkEvent "PLAYER1_MOVED" [("turn", .num 2)], mkEvent "MATCH_ENDED" [("winner", .null)]],
      isEnded e = true → carries e "winner" = true := by decide
  have h := applyEvents_refines_newTurn sampleEnv "m1" openPage _ hp
  exact ⟨hp, h.2.2.2.2.2.2.1, rfl⟩

/-- C7. For every event whose kind `data.type` can be read and is none of the
recognised kinds, whatever else the event holds (a payload or none), the
handler completes without raising and yields the start state with only the game
status replaced by "Update received from game.": the snapshot (with its
`currentTurnId`), the win tallies, the error and the request log are unchanged. -/
theorem handleEvent_unknown_kind (env : Env) (id : String) (data kind : JSVal) (st : Page)
    (hk : getProp data "type" = .ok kind) (hu : recognised kind = false) :
    handleEvent env id data st = .ok { st with gameStatus := "Update received from game." } :=
  handleEvent_unrecognised env id data kind st hk hu

theorem handleEvent_unknown_kind_witness :
    getProp pingEvent "payload" = .ok .undefined ∧ recognised (.str "PING") = false ∧
    handleEvent sampleEnv "m1" pingEvent openPage
      = .ok { openPage with gameStatus := "Update received from game." } :=
  ⟨rfl, rfl, handleEvent_unknown_kind sampleEnv "m1" pingEvent (.str "PING") openPage rfl rfl⟩

/-! ## Claims on the event stream -/

/-- C8, evaluated on the code: activate on match `a`, let the transport fail,
change the match id to `b` before the reconnect timer expires, then let the
timer expire: two subscriptions are live.  Changing the id to `a` and back to
`b` then leaves two live subscriptions on match `b` itself. -/
theorem two_live_subscriptions_reachable :
    (liveSources (run sampleEnv "a"
      [.streamError 0, .changeId "b", .timerExpires 0])).map Source.url
      = ["http://api/matches/b/subscribe", "http://api/matches/a/subscribe"] ∧
    (liveSources (run sampleEnv "a"
      [.streamError 0, .changeId "b", .timerExpires 0, .changeId "a", .changeId "b"])).map
        Source.url
      = ["http://api/matches/b/subscribe", "http://api/matches/b/subscribe"] :=
  ⟨rfl, rfl⟩

/-- C9, evaluated on the code: unmounting right after activation leaves the
subscription open; and when the transport failed and the component is unmounted
before the reconnect timer expires, the timer stays pending and its expiry
opens a new subscription for the unmounted component. -/
theorem subscription_survives_teardown :
    (run sampleEnv "a" [.unmount]).mounted = false ∧
    (liveSources (run sampleEnv "a" [.unmount])).length = 1 ∧
    (run sampleEnv "a" [.streamError 0, .unmount]).timers.length = 1 ∧
    (liveSources (run sampleEnv "a" [.streamError 0, .unmount])).length = 0 ∧
    (run sampleEnv "a" [.streamError 0, .unmount, .timerExpires 0]).mounted = false ∧
    (liveSources (run sampleEnv "a" [.streamError 0, .unmount, .timerExpires 0])).length = 1 :=
  ⟨rfl, rfl, rfl, rfl, rfl, rfl⟩

end MatchPage
